import Mathlib

/-!
Verification development for the oxygen-station core of a hospital-management
backend (Python/Flask service layer in services/oxygen_service.py plus a
FastAPI direct-update endpoint in main.py).

The embedding is a shallow one: the MySQL tables oxygen_stations and
oxygen_readings become lists of records held in a Store value, the SQL
statements executed by the service methods become pure functions on that
Store, and MySQL arithmetic on DECIMAL columns is modelled with rationals.
SQL specifics that the service relies on are modelled explicitly:
  - division by zero yields NULL, and a comparison with NULL is not satisfied
    (sqlDiv, sqlRatioLt below);
  - AVG skips NULL summands (filterMap in get_statistics);
  - a negative LIMIT or OFFSET, or an unknown ORDER BY column, makes the
    statement fail, which the service catches and turns into a
    DatabaseResult with success=False;
  - Python integer floor division by zero raises, likewise caught
    (the total_pages computation).
All record fields keep the column names of the source schema.
-/

/-- SQL division: x / 0 is NULL in MySQL, modelled as none. -/
def sqlDiv (a b : ℚ) : Option ℚ :=
  if b = 0 then none else some (a / b)

/-- SQL comparison (expr < bound) where expr may be NULL: NULL compares false. -/
def sqlRatioLt (lvl cap bound : ℚ) : Bool :=
  match sqlDiv lvl cap with
  | none => false
  | some r => decide (r < bound)

/-- Case-insensitive substring test, modelling a MySQL ci-collation
LIKE pattern of the shape percent-text-percent built by the service
(wildcards inside the caller text are not modelled; no claim depends on it). -/
def likeContains (hay pat : String) : Bool :=
  if pat = "" then true
  else decide ((hay.toLower.splitOn pat.toLower).length ≥ 2)

/-- Embeds PaginationParams of models/database.py (page and limit are Python ints). -/
structure PaginationParams where
  page : ℤ := 1
  limit : ℤ := 50
  sort_by : String := "id"
  sort_order : String := "ASC"
deriving Repr, DecidableEq

/-- Embeds PaginatedResult of models/database.py. total comes from a COUNT(*) so it is
a natural number; total_pages is computed by the service in Python as
(total + limit - 1) // limit, reached only with limit >= 1 (see the
operations below), so it is kept as a natural number as well. -/
structure PaginatedResult (α : Type) where
  data : List α
  total : ℕ
  page : ℤ
  limit : ℤ
  total_pages : ℕ
deriving Repr, DecidableEq

/-- Embeds DatabaseResult of models/database.py. -/
structure DatabaseResult (α : Type) where
  success : Bool
  data : Option α := none
  error : Option String := none
  insert_id : Option ℕ := none
deriving Repr, DecidableEq

/-- Embeds OxygenStation of models/database.py, one row of the oxygen_stations table
of scripts/init_database.py (DECIMAL columns as rationals, DATETIME columns
as opaque strings). -/
structure OxygenStation where
  station_id : ℕ
  station_name : String
  location : String
  capacity_liters : ℚ
  current_level : ℚ
  pressure_psi : Option ℚ := none
  flow_rate : Option ℚ := none
  status : String := "operational"
  last_refill : Option String := none
  next_maintenance : Option String := none
  supplier : Option String := none
  alerts_enabled : Bool := true
deriving Repr, DecidableEq

/-- Embeds OxygenReading of models/database.py, one row of oxygen_readings; timestamp
defaults to the insertion instant, modelled by the store clock. -/
structure OxygenReading where
  reading_id : ℕ
  station_id : ℕ
  level_liters : ℚ
  pressure_psi : Option ℚ := none
  flow_rate : Option ℚ := none
  temperature : Option ℚ := none
  timestamp : ℕ := 0
deriving Repr, DecidableEq

/-- Embeds CreateOxygenStation of models/database.py. -/
structure CreateOxygenStation where
  station_name : String
  location : String
  capacity_liters : ℚ
  current_level : ℚ
  pressure_psi : Option ℚ := none
  flow_rate : Option ℚ := none
  status : String := "operational"
  last_refill : Option String := none
  next_maintenance : Option String := none
  supplier : Option String := none
  alerts_enabled : Bool := true
deriving Repr, DecidableEq

/-- Embeds CreateOxygenReading of models/database.py. -/
structure CreateOxygenReading where
  station_id : ℕ
  level_liters : ℚ
  pressure_psi : Option ℚ := none
  flow_rate : Option ℚ := none
  temperature : Option ℚ := none
deriving Repr, DecidableEq

/-- Embeds OxygenStationFilter of models/database.py. -/
structure OxygenStationFilter where
  status : Option String := none
  location : Option String := none
  low_level_threshold : Option ℚ := none
deriving Repr, DecidableEq

/-- Embeds OxygenStatusSummary of models/database.py. -/
structure OxygenStatusSummary where
  total_stations : ℕ
  operational_stations : ℕ
  maintenance_stations : ℕ
  offline_stations : ℕ
  total_capacity : ℚ
  total_current_level : ℚ
  average_fill_percentage : ℚ
  low_level_alerts : ℕ
deriving Repr, DecidableEq

/-- The database state seen by the service layer: the two tables, the
AUTO_INCREMENT counters, and a clock supplying CURRENT_TIMESTAMP values. -/
structure Store where
  stations : List OxygenStation
  readings : List OxygenReading
  next_station_id : ℕ := 1
  next_reading_id : ℕ := 1
  clock : ℕ := 0
deriving Repr, DecidableEq

/-- Foreign-key invariant of the oxygen_readings table: every reading
references an existing station. -/
def fkOk (s : Store) : Prop :=
  ∀ r ∈ s.readings, ∃ st ∈ s.stations, st.station_id = r.station_id

instance (s : Store) : Decidable (fkOk s) := by
  unfold fkOk; infer_instance

/-- Embeds OxygenService.find_station_by_id: SELECT by primary key, first row. -/
def find_station_by_id (store : Store) (station_id : ℕ) :
    DatabaseResult OxygenStation :=
  match store.stations.find? (fun s => decide (s.station_id = station_id)) with
  | none => { success := false, error := some ("Oxygen station not found") }
  | some st => { success := true, data := some st }

/-- Embeds OxygenService.create_station: a plain INSERT of the request fields (no
validation of capacity or level whatsoever), followed by a fetch of the
created row; always reports success. -/
def create_station (store : Store) (d : CreateOxygenStation) :
    DatabaseResult OxygenStation × Store :=
  let st : OxygenStation :=
    { station_id := store.next_station_id
      station_name := d.station_name
      location := d.location
      capacity_liters := d.capacity_liters
      current_level := d.current_level
      pressure_psi := d.pressure_psi
      flow_rate := d.flow_rate
      status := d.status
      last_refill := d.last_refill
      next_maintenance := d.next_maintenance
      supplier := d.supplier
      alerts_enabled := d.alerts_enabled }
  let store' : Store :=
    { store with
      stations := store.stations ++ [st]
      next_station_id := store.next_station_id + 1 }
  ({ success := true
     data := (find_station_by_id store' store.next_station_id).data
     insert_id := some store.next_station_id }, store')

/-- Embeds OxygenService.create_reading: INSERT the reading row (the FOREIGN KEY
constraint rejects an unknown station, surfacing as a failed result), then
UPDATE the owning station's current_level to the new value. No capacity
bound is checked and the station's status column is not touched. -/
def create_reading (store : Store) (d : CreateOxygenReading) :
    DatabaseResult ℕ × Store :=
  if store.stations.any (fun s => decide (s.station_id = d.station_id)) then
    let r : OxygenReading :=
      { reading_id := store.next_reading_id
        station_id := d.station_id
        level_liters := d.level_liters
        pressure_psi := d.pressure_psi
        flow_rate := d.flow_rate
        temperature := d.temperature
        timestamp := store.clock }
    let store' : Store :=
      { store with
        readings := store.readings ++ [r]
        next_reading_id := store.next_reading_id + 1
        clock := store.clock + 1
        stations := store.stations.map (fun s =>
          if s.station_id = d.station_id then
            { s with current_level := d.level_liters }
          else s) }
    ({ success := true
       data := some store.next_reading_id
       insert_id := some store.next_reading_id }, store')
  else
    ({ success := false
       error := some ("foreign key constraint fails") }, store)

/-- The WHERE clause built by OxygenService.find_all_stations, applied to
one row. Python truthiness of the filter fields is preserved: an empty
string or a zero threshold disables the corresponding condition. -/
def matchesFilter (f : OxygenStationFilter) (s : OxygenStation) : Bool :=
  (match f.status with
   | none => true
   | some v => if v = "" then true else decide (s.status = v)) &&
  (match f.location with
   | none => true
   | some v => if v = "" then true else likeContains s.location v) &&
  (match f.low_level_threshold with
   | none => true
   | some t =>
     if t = 0 then true
     else sqlRatioLt s.current_level s.capacity_liters (t / 100))

/-- Insertion into a list sorted by a boolean comparator. -/
def insertOrd (le : α → α → Bool) (a : α) : List α → List α
  | [] => [a]
  | b :: l => if le a b then a :: b :: l else b :: insertOrd le a l

/-- Deterministic sort by a boolean comparator, modelling ORDER BY on a
single column. -/
def sortOrd (le : α → α → Bool) : List α → List α
  | [] => []
  | a :: l => insertOrd le a (sortOrd le l)

/-- The ORDER BY column of the stations query is interpolated verbatim from
the caller (see stationDataQuery below); this interprets it for the columns
of the oxygen_stations table that the development uses, and any other
string is an unknown-column SQL error (none). -/
def stationCmp (col : String) : Option (OxygenStation → OxygenStation → Bool) :=
  if col = "station_id" then
    some (fun a b => decide (a.station_id ≤ b.station_id))
  else if col = "station_name" then
    some (fun a b => !decide (b.station_name < a.station_name))
  else if col = "location" then
    some (fun a b => !decide (b.location < a.location))
  else if col = "status" then
    some (fun a b => !decide (b.status < a.status))
  else if col = "capacity_liters" then
    some (fun a b => decide (a.capacity_liters ≤ b.capacity_liters))
  else if col = "current_level" then
    some (fun a b => decide (a.current_level ≤ b.current_level))
  else none

/-- Likewise for the oxygen_readings query. -/
def readingCmp (col : String) : Option (OxygenReading → OxygenReading → Bool) :=
  if col = "reading_id" then
    some (fun a b => decide (a.reading_id ≤ b.reading_id))
  else if col = "station_id" then
    some (fun a b => decide (a.station_id ≤ b.station_id))
  else if col = "level_liters" then
    some (fun a b => decide (a.level_liters ≤ b.level_liters))
  else if col = "timestamp" then
    some (fun a b => decide (a.timestamp ≤ b.timestamp))
  else none

/-- ORDER BY col dir: a recognised column with direction ASC or DESC sorts;
anything else is a SQL error (none). -/
def sqlOrderBy (cmp? : Option (α → α → Bool)) (dir : String) (l : List α) :
    Option (List α) :=
  match cmp? with
  | none => none
  | some le =>
    if dir = "ASC" then some (sortOrd le l)
    else if dir = "DESC" then some (sortOrd (fun a b => le b a) l)
    else none

/-- The rows matching the WHERE clause of find_all_stations, independent of
the page window: this is both the COUNT(*) input and the page-query input
of the source. -/
def filteredStations (store : Store) (filters : OxygenStationFilter) :
    List OxygenStation :=
  store.stations.filter (fun s => matchesFilter filters s)

/-- Embeds OxygenService.find_all_stations: COUNT over the WHERE clause, then the
page query ORDER BY sort_by sort_order LIMIT limit OFFSET (page-1)*limit,
then total_pages = (total + limit - 1) // limit in Python. A bad sort
column or direction, a negative LIMIT or OFFSET (MySQL errors), or limit = 0
(Python ZeroDivisionError in the total_pages computation) all surface as a
caught exception, that is a failed DatabaseResult. -/
def find_all_stations (store : Store) (filters : OxygenStationFilter)
    (pg : PaginationParams) : DatabaseResult (PaginatedResult OxygenStation) :=
  match sqlOrderBy (stationCmp pg.sort_by) pg.sort_order
      (filteredStations store filters) with
  | none => { success := false, error := some ("Unknown column in order clause") }
  | some sorted =>
    if pg.limit < 0 ∨ (pg.page - 1) * pg.limit < 0 then
      { success := false, error := some ("You have an error in your SQL syntax") }
    else if pg.limit = 0 then
      { success := false, error := some ("integer division or modulo by zero") }
    else
      { success := true
        data := some
          { data := (sorted.drop ((pg.page - 1) * pg.limit).toNat).take pg.limit.toNat
            total := (filteredStations store filters).length
            page := pg.page
            limit := pg.limit
            total_pages := ((filteredStations store filters).length +
              pg.limit.toNat - 1) / pg.limit.toNat } }

/-- The readings of one station, the WHERE station_id input of both the
COUNT and the page query of get_readings_for_station. -/
def stationReadings (store : Store) (station_id : ℕ) : List OxygenReading :=
  store.readings.filter (fun r => decide (r.station_id = station_id))

/-- Embeds OxygenService.get_readings_for_station: COUNT of the station's readings,
then the page query with the same interpolated ORDER BY and the same
total_pages computation; there is no existence check on the station. -/
def get_readings_for_station (store : Store) (station_id : ℕ)
    (pg : PaginationParams) : DatabaseResult (PaginatedResult OxygenReading) :=
  match sqlOrderBy (readingCmp pg.sort_by) pg.sort_order
      (stationReadings store station_id) with
  | none => { success := false, error := some ("Unknown column in order clause") }
  | some sorted =>
    if pg.limit < 0 ∨ (pg.page - 1) * pg.limit < 0 then
      { success := false, error := some ("You have an error in your SQL syntax") }
    else if pg.limit = 0 then
      { success := false, error := some ("integer division or modulo by zero") }
    else
      { success := true
        data := some
          { data := (sorted.drop ((pg.page - 1) * pg.limit).toNat).take pg.limit.toNat
            total := (stationReadings store station_id).length
            page := pg.page
            limit := pg.limit
            total_pages := ((stationReadings store station_id).length +
              pg.limit.toNat - 1) / pg.limit.toNat } }

/-- Embeds the app.py get_oxygen_readings route: HTTP 200 on a successful service
result, 400 otherwise. -/
def get_oxygen_readings_http (store : Store) (station_id : ℕ)
    (pg : PaginationParams) : ℕ :=
  if (get_readings_for_station store station_id pg).success then 200 else 400

/-- Embeds OxygenService.get_statistics, the single aggregate SELECT. AVG skips
rows whose ratio is NULL (capacity 0) and is NULL on an empty input, which
the Python side turns into 0; the low-level CASE counts ratios strictly
below 0.2, a NULL ratio counting as false. -/
def get_statistics (store : Store) : DatabaseResult OxygenStatusSummary :=
  let sts := store.stations
  let ratios := sts.filterMap
    (fun s => (sqlDiv s.current_level s.capacity_liters).map (· * 100))
  { success := true
    data := some
      { total_stations := sts.length
        operational_stations :=
          (sts.filter (fun s => decide (s.status = "operational"))).length
        maintenance_stations :=
          (sts.filter (fun s => decide (s.status = "maintenance"))).length
        offline_stations :=
          (sts.filter (fun s => decide (s.status = "offline"))).length
        total_capacity := (sts.map (·.capacity_liters)).sum
        total_current_level := (sts.map (·.current_level)).sum
        average_fill_percentage :=
          if ratios.length = 0 then 0 else ratios.sum / ratios.length
        low_level_alerts :=
          (sts.filter
            (fun s => sqlRatioLt s.current_level s.capacity_liters (0.2 : ℚ))).length } }

/-!
The FastAPI backend in main.py operates on its own oxygen_stations schema
(integer liter columns, per-station alert thresholds, a status column that
the update endpoint derives). Its rows and the PUT level endpoint follow.
-/

/-- A row of the oxygen_stations table as used by main.py
(capacity_liters and current_level_liters are ints there; the alert
threshold columns are DECIMAL percentages). -/
structure OxygenStationMain where
  station_id : ℕ
  station_code : String := ""
  station_name : String := ""
  location : String := ""
  capacity_liters : ℤ
  current_level_liters : ℤ
  current_level_percentage : ℚ := 0
  alert_threshold_low : ℚ
  alert_threshold_critical : ℚ
  status : String
deriving Repr, DecidableEq

/-- The SQL CASE of main.py update_oxygen_level: compare
(new_level / capacity_liters) * 100 against the critical threshold, then
the low threshold, else normal. Division by a zero capacity is NULL and
both comparisons are then false, falling through to the ELSE branch. -/
def deriveStatus (newLevel cap : ℤ) (tCrit tLow : ℚ) : String :=
  match sqlDiv (newLevel : ℚ) (cap : ℚ) with
  | none => "normal"
  | some r =>
    if r * 100 ≤ tCrit then "critical"
    else if r * 100 ≤ tLow then "low"
    else "normal"

/-- Outcome of the PUT oxygen-stations level endpoint: either the success
payload or an HTTPException with its status code and detail. -/
inductive LevelUpdateResult where
  | ok (message : String) (new_level_liters : ℤ)
  | err (statusCode : ℕ) (detail : String)
deriving Repr, DecidableEq

/-- Embeds main.py update_oxygen_level: fetch the station's capacity (404 when the
id is unknown), reject a new level above capacity with a 400, otherwise
set current_level_liters and recompute status with the SQL CASE. No lower
bound on the new level is checked. -/
def update_oxygen_level (stations : List OxygenStationMain) (station_id : ℕ)
    (new_level_liters : ℤ) : LevelUpdateResult × List OxygenStationMain :=
  match stations.find? (fun s => decide (s.station_id = station_id)) with
  | none => (.err 404 "Oxygen station not found", stations)
  | some st =>
    if new_level_liters > st.capacity_liters then
      (.err 400 "Level cannot exceed capacity", stations)
    else
      (.ok "Oxygen level updated successfully" new_level_liters,
       stations.map (fun s =>
         if s.station_id = station_id then
           { s with
             current_level_liters := new_level_liters
             status := deriveStatus new_level_liters s.capacity_liters
               s.alert_threshold_critical s.alert_threshold_low }
         else s))

/-!
The literal SQL text built by OxygenService.find_all_stations and
get_readings_for_station for the page query: the sort column and direction
are interpolated into the statement (an f-string in the source), only the
filter values and the LIMIT/OFFSET values are bound parameters.
Whitespace is normalised to single spaces.
-/

/-- The stations page query text, from the where clause and the
caller-supplied sort column and direction. -/
def stationDataQuery (whereClause sortBy sortOrder : String) : String :=
  "SELECT * FROM oxygen_stations " ++ whereClause ++ " ORDER BY " ++
    sortBy ++ " " ++ sortOrder ++ " LIMIT %s OFFSET %s"

/-- The readings page query text for a station, from the caller-supplied
sort column and direction. -/
def readingsDataQuery (sortBy sortOrder : String) : String :=
  "SELECT * FROM oxygen_readings WHERE station_id = %s ORDER BY " ++
    sortBy ++ " " ++ sortOrder ++ " LIMIT %s OFFSET %s"

/-- The status formula exactly as the specification states it (section 4.1):
ratio = current_level / capacity * 100, critical when ratio is at most the
critical threshold, low when at most the low threshold, else normal. Stated
for the refinement comparison with deriveStatus, which is translated from
the SQL CASE of the source. -/
def specStatusFormula (current_level capacity tLow tCrit : ℚ) : String :=
  if current_level / capacity * 100 ≤ tCrit then "critical"
  else if current_level / capacity * 100 ≤ tLow then "low"
  else "normal"

/-- The rows of one page of find_all_stations (1-indexed page i+1), empty
when the call fails. -/
def stationPageData (store : Store) (filters : OxygenStationFilter)
    (pg : PaginationParams) (i : ℕ) : List OxygenStation :=
  match (find_all_stations store filters { pg with page := (i : ℤ) + 1 }).data with
  | some r => r.data
  | none => []

/-- A station holding 450 of 500 liters, as inserted by the sample data of
scripts/init_database.py. -/
def sampleStation : OxygenStation :=
  { station_id := 1
    station_name := "Main Station A"
    location := "ICU Floor 1"
    capacity_liters := 500
    current_level := 450
    status := "operational" }

/-- A one-station store around sampleStation. -/
def sampleStore : Store :=
  { stations := [sampleStation]
    readings := []
    next_station_id := 2
    next_reading_id := 1 }

/-- A station-creation request with the negative capacity of the
specification scenario. -/
def negativeCapacityRequest : CreateOxygenStation :=
  { station_name := "Station X"
    location := "Ward 9"
    capacity_liters := -10
    current_level := 0 }

/-- The empty database. -/
def emptyStore : Store := { stations := [], readings := [] }

/-- The main.py-schema station of the specification scenario: capacity 500,
thresholds low 30 and critical 15. -/
def scenarioMainStation : OxygenStationMain :=
  { station_id := 1
    capacity_liters := 500
    current_level_liters := 500
    alert_threshold_low := 30
    alert_threshold_critical := 15
    status := "normal" }

/-- The scenarioMainStation record after a successful direct level update to 400. -/
def scenarioMainAfter : OxygenStationMain :=
  { station_id := 1
    capacity_liters := 500
    current_level_liters := 400
    alert_threshold_low := 30
    alert_threshold_critical := 15
    status := "normal" }

/-- Two stations with different capacities but the same fill ratio. -/
def equalRatioStore : Store :=
  { stations :=
      [{ station_id := 1, station_name := "A", location := "L1",
         capacity_liters := 100, current_level := 50 },
       { station_id := 2, station_name := "B", location := "L2",
         capacity_liters := 200, current_level := 100 }]
    readings := []
    next_station_id := 3 }

/-- Two stations with different capacities and different fill ratios. -/
def variedRatioStore : Store :=
  { stations :=
      [{ station_id := 1, station_name := "A", location := "L1",
         capacity_liters := 100, current_level := 100 },
       { station_id := 2, station_name := "B", location := "L2",
         capacity_liters := 300, current_level := 60 }]
    readings := []
    next_station_id := 3 }

/-- A second one-station store differing from sampleStore only in fields
other than current_level and capacity_liters. -/
def relabeledStore : Store :=
  { stations :=
      [{ station_id := 9
         station_name := "Renamed"
         location := "Basement"
         capacity_liters := 500
         current_level := 450
         status := "offline" }]
    readings := []
    next_station_id := 10 }

/-- A three-station store for the pagination witness. -/
def threeStationStore : Store :=
  { stations :=
      [{ station_id := 1, station_name := "A", location := "L1",
         capacity_liters := 500, current_level := 450 },
       { station_id := 2, station_name := "B", location := "L2",
         capacity_liters := 400, current_level := 100 },
       { station_id := 3, station_name := "C", location := "L3",
         capacity_liters := 300, current_level := 60 }]
    readings := []
    next_station_id := 4 }

/-- A store whose only station has id 1 and owns one reading; station id 2
does not exist here. -/
def readingsStore : Store :=
  { stations := [sampleStation]
    readings := [{ reading_id := 1, station_id := 1, level_liters := 450,
                   timestamp := 0 }]
    next_station_id := 2
    next_reading_id := 2
    clock := 1 }

/-!
Helper lemmas about the embedding.
-/

/-- Inserting with a comparator is a permutation of consing. -/
lemma insertOrd_perm (le : α → α → Bool) (a : α) (l : List α) :
    List.Perm (insertOrd le a l) (a :: l) := by
  induction l with
  | nil => exact List.Perm.refl _
  | cons b t ih =>
    unfold insertOrd
    split
    · exact List.Perm.refl _
    · exact (ih.cons b).trans (List.Perm.swap a b t)

/-- The ORDER BY model returns a permutation of its input. -/
lemma sortOrd_perm (le : α → α → Bool) (l : List α) : List.Perm (sortOrd le l) l := by
  induction l with
  | nil => exact List.Perm.refl _
  | cons a t ih => exact (insertOrd_perm le a (sortOrd le t)).trans (ih.cons a)

/-- Python (total + limit - 1) // limit is the ceiling of total / limit. -/
lemma total_pages_eq_ceil (t k : ℕ) (hk : 0 < k) :
    (t + k - 1) / k = ⌈(t : ℚ) / (k : ℚ)⌉₊ := by
  have key : ∀ c : ℕ, (t + k - 1) / k ≤ c ↔ ⌈(t : ℚ) / (k : ℚ)⌉₊ ≤ c := by
    intro c
    rw [← Nat.ceilDiv_eq_add_pred_div, ceilDiv_le_iff_le_mul hk, Nat.ceil_le,
      div_le_iff₀ (by exact_mod_cast hk)]
    constructor
    · intro h
      have hq : (t : ℚ) ≤ (k : ℚ) * (c : ℚ) := by exact_mod_cast h
      linarith
    · intro h
      have hq : (t : ℚ) ≤ (k : ℚ) * (c : ℚ) := by linarith
      exact_mod_cast hq
  exact le_antisymm ((key _).mpr le_rfl) ((key _).mp le_rfl)

/-- Concatenating the successive LIMIT/OFFSET windows of a list recovers the
list, provided there are enough windows to cover its length. -/
lemma chunks_concat {α : Type} (k : ℕ) :
    ∀ (n : ℕ) (l : List α), l.length ≤ n * k →
      (List.range n).flatMap (fun i => (l.drop (i * k)).take k) = l := by
  intro n
  induction n with
  | zero =>
    intro l hl
    simp only [Nat.zero_mul, Nat.le_zero] at hl
    simp [List.eq_nil_of_length_eq_zero hl]
  | succ n ih =>
    intro l hl
    rw [List.range_succ_eq_map, List.flatMap_cons, List.flatMap_map]
    have hdrop : ∀ i : ℕ, l.drop (Nat.succ i * k) = (l.drop k).drop (i * k) := by
      intro i
      rw [List.drop_drop]
      congr 1
      simp only [Nat.succ_eq_add_one]
      ring
    have hrest :
        (List.range n).flatMap (fun a => (l.drop (Nat.succ a * k)).take k) =
          (List.range n).flatMap (fun a => ((l.drop k).drop (a * k)).take k) := by
      congr 1
      funext a
      rw [hdrop a]
    rw [hrest, ih (l.drop k) (by
      rw [List.length_drop]
      rw [Nat.succ_mul] at hl
      omega)]
    simp [List.take_append_drop]

/-- filter respects pointwise-equal predicates. -/
lemma filter_ext_pred {α : Type} (p q : α → Bool) (h : ∀ a, p a = q a)
    (l : List α) : l.filter p = l.filter q := by
  induction l with
  | nil => rfl
  | cons a t ih => simp [List.filter_cons, h a, ih]

/-- map respects predicates equal on the list. -/
lemma map_ext_mem {α β : Type} {f g : α → β} (l : List α)
    (h : ∀ a ∈ l, f a = g a) : l.map f = l.map g := by
  induction l with
  | nil => rfl
  | cons a t ih =>
    simp only [List.map_cons, h a (by simp)]
    rw [ih (fun x hx => h x (by simp [hx]))]

/-- With every capacity nonzero, the AVG input of get_statistics is the
plain list of per-station fill percentages. -/
lemma ratios_eq_map (sts : List OxygenStation)
    (h : ∀ st ∈ sts, st.capacity_liters ≠ 0) :
    sts.filterMap (fun s => (sqlDiv s.current_level s.capacity_liters).map (· * 100))
      = sts.map (fun s => s.current_level / s.capacity_liters * 100) := by
  induction sts with
  | nil => rfl
  | cons a t ih =>
    have ha := h a (by simp)
    have ih' := ih (fun st hst => h st (by simp [hst]))
    simp only [sqlDiv] at ih'
    simp [List.filterMap_cons, sqlDiv, ha, ih']

/-!
Claim theorems.
-/

/-- C2: for capacity > 0, the status derived on a direct level update is
exactly the specification formula (critical when ratio is at most the
critical threshold, low when at most the low threshold, else normal); in
particular, with capacity 500, threshold_low 30 and threshold_critical 15,
level 500 is normal, level 140 (28 percent) is low and level 60
(12 percent) is critical, and the update endpoint stores the derived
status. -/
theorem oxygen_c2_status_derivation :
    (∀ (lvl cap : ℤ) (tLow tCrit : ℚ), 0 < cap →
      deriveStatus lvl cap tCrit tLow =
        specStatusFormula (lvl : ℚ) (cap : ℚ) tLow tCrit) ∧
    deriveStatus 500 500 15 30 = "normal" ∧
    deriveStatus 140 500 15 30 = "low" ∧
    deriveStatus 60 500 15 30 = "critical" ∧
    ((update_oxygen_level [scenarioMainStation] 1 140).2.map
      (fun s => s.status)) = ["low"] := by
  refine ⟨?_, by norm_num [deriveStatus, sqlDiv], by norm_num [deriveStatus, sqlDiv],
    by norm_num [deriveStatus, sqlDiv],
    by norm_num [update_oxygen_level, scenarioMainStation, deriveStatus, sqlDiv]⟩
  intro lvl cap tLow tCrit hcap
  have hne : (cap : ℚ) ≠ 0 := by
    exact_mod_cast (by omega : cap ≠ 0)
  simp [deriveStatus, specStatusFormula, sqlDiv, hne]

/-- Witness for C2 at the scenario input: level 140 of capacity 500. -/
theorem oxygen_c2_witness :
    deriveStatus 140 500 15 30 = specStatusFormula 140 500 30 15 :=
  oxygen_c2_status_derivation.1 140 500 30 15 (by norm_num)

/-- C4: a direct level update above the found station's capacity is
rejected with HTTP 400 and the explicit message, and the stored rows are
returned unchanged. -/
theorem oxygen_c4_reject_overflow (stations : List OxygenStationMain)
    (station_id : ℕ) (new_level : ℤ) (st : OxygenStationMain)
    (hfind : stations.find? (fun s => decide (s.station_id = station_id)) = some st)
    (hover : new_level > st.capacity_liters) :
    update_oxygen_level stations station_id new_level =
      (LevelUpdateResult.err 400 "Level cannot exceed capacity", stations) := by
  unfold update_oxygen_level
  simp only [hfind]
  rw [if_pos hover]

/-- Witness for C4: updating the capacity-500 scenario station to 600. -/
theorem oxygen_c4_witness :
    update_oxygen_level [scenarioMainStation] 1 600 =
      (LevelUpdateResult.err 400 "Level cannot exceed capacity",
       [scenarioMainStation]) :=
  oxygen_c4_reject_overflow [scenarioMainStation] 1 600 scenarioMainStation
    (by decide) (by decide)

/-- C5 counterexample: create_station performs no validation at all, so the
scenario request with capacity -10 succeeds and its row is persisted,
refuting the claim that it is rejected with no row persisted. -/
theorem oxygen_c5_counterexample :
    ((create_station emptyStore negativeCapacityRequest).1.success = true) ∧
    ((create_station emptyStore negativeCapacityRequest).2.stations.map
      (fun s => s.capacity_liters)) = [-10] := by decide

/-- C5 amended: create_station always reports success and always appends
exactly the row built from the request fields, whatever the capacity. -/
theorem oxygen_c5_amended :
    ∀ (store : Store) (d : CreateOxygenStation),
      ((create_station store d).1.success = true) ∧
      (create_station store d).2.stations = store.stations ++
        [{ station_id := store.next_station_id
           station_name := d.station_name
           location := d.location
           capacity_liters := d.capacity_liters
           current_level := d.current_level
           pressure_psi := d.pressure_psi
           flow_rate := d.flow_rate
           status := d.status
           last_refill := d.last_refill
           next_maintenance := d.next_maintenance
           supplier := d.supplier
           alerts_enabled := d.alerts_enabled }] := by
  intro store d
  exact ⟨rfl, rfl⟩

/-- C6 counterexample: an arbitrary caller-supplied sort string is
interpolated verbatim as the ORDER BY column of both page queries, so the
sort column is not drawn from any allow-list. -/
theorem oxygen_c6_counterexample :
    stationDataQuery "" "station_name; DROP TABLE oxygen_stations; --" "ASC" =
      "SELECT * FROM oxygen_stations  ORDER BY station_name; DROP TABLE oxygen_stations; -- ASC LIMIT %s OFFSET %s" ∧
    readingsDataQuery "station_name; DROP TABLE oxygen_stations; --" "ASC" =
      "SELECT * FROM oxygen_readings WHERE station_id = %s ORDER BY station_name; DROP TABLE oxygen_stations; -- ASC LIMIT %s OFFSET %s" := by
  exact ⟨rfl, rfl⟩

/-- C6 amended: for every caller-supplied sort column and direction, the
built station and reading queries contain them verbatim in the ORDER BY
position; nothing restricts them to known column names. -/
theorem oxygen_c6_amended :
    ∀ (whereClause sortBy sortOrder : String),
      stationDataQuery whereClause sortBy sortOrder =
        ("SELECT * FROM oxygen_stations " ++ whereClause ++ " ORDER BY ") ++
          (sortBy ++ " " ++ sortOrder) ++ " LIMIT %s OFFSET %s" ∧
      readingsDataQuery sortBy sortOrder =
        "SELECT * FROM oxygen_readings WHERE station_id = %s ORDER BY " ++
          (sortBy ++ " " ++ sortOrder) ++ " LIMIT %s OFFSET %s" := by
  intro w s o
  constructor <;> simp [stationDataQuery, readingsDataQuery, String.append_assoc]

/-- C1 counterexample: reading ingestion performs no capacity validation,
so on the 500-liter sample station a successful create_reading stores a
current_level of 600, violating the claimed invariant
current_level at most capacity after every successful operation. -/
theorem oxygen_c1_counterexample :
    ((create_reading sampleStore { station_id := 1, level_liters := 600 }).1.success
      = true) ∧
    ((create_reading sampleStore { station_id := 1, level_liters := 600 }).2.stations.map
      (fun s => s.current_level)) = [600] ∧
    ((create_reading sampleStore { station_id := 1, level_liters := 600 }).2.stations.map
      (fun s => s.capacity_liters)) = [500] ∧
    ¬ ((600 : ℚ) ≤ (500 : ℚ)) := by
  refine ⟨by decide, by decide, by decide, by norm_num⟩

/-- C1 amended: only the direct level-update endpoint enforces a bound, and
only the upper one; after a successful direct update the updated station
satisfies current_level_liters at most capacity_liters. -/
theorem oxygen_c1_amended (stations stations' : List OxygenStationMain)
    (station_id : ℕ) (new_level : ℤ) (msg : String) (lvl' : ℤ)
    (hnodup : (stations.map OxygenStationMain.station_id).Nodup)
    (h : update_oxygen_level stations station_id new_level =
      (LevelUpdateResult.ok msg lvl', stations'))
    (st' : OxygenStationMain) (hmem : st' ∈ stations')
    (hid : st'.station_id = station_id) :
    st'.current_level_liters ≤ st'.capacity_liters := by
  unfold update_oxygen_level at h
  cases hfind : stations.find? (fun s => decide (s.station_id = station_id)) with
  | none =>
    rw [hfind] at h
    simp at h
  | some st =>
    simp only [hfind] at h
    by_cases hover : new_level > st.capacity_liters
    · rw [if_pos hover] at h
      simp at h
    · rw [if_neg hover] at h
      have hsts : stations' = stations.map (fun s =>
          if s.station_id = station_id then
            { s with
              current_level_liters := new_level
              status := deriveStatus new_level s.capacity_liters
                s.alert_threshold_critical s.alert_threshold_low }
          else s) := by
        have hsnd := congrArg Prod.snd h
        exact hsnd.symm
      rw [hsts] at hmem
      rcases List.mem_map.mp hmem with ⟨orig, horig, heq⟩
      by_cases hoid : orig.station_id = station_id
      · rw [if_pos hoid] at heq
        have hcap : st'.capacity_liters = orig.capacity_liters := by rw [← heq]
        have hlvl : st'.current_level_liters = new_level := by rw [← heq]
        have hstmem := List.mem_of_find?_eq_some hfind
        have hstid : st.station_id = station_id := by
          have hps := List.find?_some hfind
          simpa using hps
        have horig_eq : orig = st :=
          List.inj_on_of_nodup_map hnodup horig hstmem (by rw [hoid, hstid])
        rw [hlvl, hcap, horig_eq]
        exact le_of_not_lt hover
      · rw [if_neg hoid] at heq
        exact absurd (by rw [heq]; exact hid) hoid

/-- Witness for C1 amended: the scenario station updated to level 400. -/
theorem oxygen_c1_witness :
    scenarioMainAfter.current_level_liters ≤ scenarioMainAfter.capacity_liters :=
  oxygen_c1_amended [scenarioMainStation] [scenarioMainAfter] 1 400
    "Oxygen level updated successfully" 400 (by decide)
    (by norm_num [update_oxygen_level, scenarioMainStation, scenarioMainAfter,
      deriveStatus, sqlDiv])
    scenarioMainAfter (by decide) (by decide)

/-- C3 counterexample: create_reading overwrites the level but never
recomputes the status column; after ingesting a 60-liter reading on the
sample 500-liter station the stored status is still the old one, although
the section 4.1 rule (thresholds 30 and 15) classifies 12 percent as
critical. -/
theorem oxygen_c3_counterexample :
    ((create_reading sampleStore { station_id := 1, level_liters := 60 }).1.success
      = true) ∧
    ((create_reading sampleStore { station_id := 1, level_liters := 60 }).2.stations.map
      (fun s => s.status)) = ["operational"] ∧
    ((create_reading sampleStore { station_id := 1, level_liters := 60 }).2.stations.map
      (fun s => s.current_level)) = [60] ∧
    deriveStatus 60 500 15 30 = "critical" ∧
    "operational" ≠ "critical" := by
  refine ⟨by decide, by decide, by decide,
    by norm_num [deriveStatus, sqlDiv], by decide⟩

/-- C3 amended: on an existing station, create_reading succeeds, appends
exactly the immutable reading row built from the request (with the next
reading id and the ingestion timestamp) and overwrites the owning
station's current_level, while every station's status is left unchanged. -/
theorem oxygen_c3_amended (store : Store) (d : CreateOxygenReading)
    (hexists : store.stations.any
      (fun s => decide (s.station_id = d.station_id)) = true) :
    ((create_reading store d).1.success = true) ∧
    ((create_reading store d).1.insert_id = some store.next_reading_id) ∧
    ((create_reading store d).2.readings = store.readings ++
      [{ reading_id := store.next_reading_id
         station_id := d.station_id
         level_liters := d.level_liters
         pressure_psi := d.pressure_psi
         flow_rate := d.flow_rate
         temperature := d.temperature
         timestamp := store.clock }]) ∧
    ((create_reading store d).2.stations = store.stations.map (fun s =>
      if s.station_id = d.station_id then
        { s with current_level := d.level_liters }
      else s)) ∧
    ((create_reading store d).2.stations.map (fun s => s.status) =
      store.stations.map (fun s => s.status)) := by
  have hcond :
      (store.stations.any (fun s => decide (s.station_id = d.station_id))) = true :=
    hexists
  refine ⟨?_, ?_, ?_, ?_, ?_⟩
  · simp [create_reading, hcond]
  · simp [create_reading, hcond]
  · simp [create_reading, hcond]
  · simp [create_reading, hcond]
  · simp only [create_reading, hcond, if_true, List.map_map]
    apply map_ext_mem
    intro a _
    by_cases hs : a.station_id = d.station_id
    · simp [Function.comp, hs]
    · simp [Function.comp, hs]

/-- Witness for C3 amended: ingesting a 60-liter reading on the sample
store keeps the stored status list unchanged. -/
theorem oxygen_c3_witness :
    ((create_reading sampleStore { station_id := 1, level_liters := 60 }).2.stations.map
      (fun s => s.status)) =
      sampleStore.stations.map (fun s => s.status) :=
  (oxygen_c3_amended sampleStore { station_id := 1, level_liters := 60 }
    (by decide)).2.2.2.2

/-- C8 counterexample: two stations with different capacities (100 and 200)
but equal fill ratios give the same value, 50, under both the per-station
mean and the pooled formula, refuting the claim that the two differ
whenever capacities vary. -/
theorem oxygen_c8_counterexample :
    ((get_statistics equalRatioStore).data.map
      (fun x => x.average_fill_percentage)) = some 50 ∧
    ((equalRatioStore.stations.map (fun st => st.current_level)).sum /
      (equalRatioStore.stations.map (fun st => st.capacity_liters)).sum * 100)
      = 50 ∧
    (equalRatioStore.stations.map (fun st => st.capacity_liters)) = [100, 200] := by
  refine ⟨?_, by norm_num [equalRatioStore], by decide⟩
  norm_num [get_statistics, equalRatioStore, sqlDiv, List.filterMap_cons]

/-- C8 amended: average_fill_percentage is the arithmetic mean of the
per-station fill percentages (SQL AVG of the ratio expression), not the
pooled ratio, and the two formulas can differ when capacities vary, as the
concrete store with capacities 100 and 300 shows (mean 60 versus pooled
40); they do not differ for every capacity-varying configuration. -/
theorem oxygen_c8_amended :
    (∀ store : Store, store.stations ≠ [] →
      (∀ st ∈ store.stations, 0 < st.capacity_liters) →
      ((get_statistics store).data.map (fun x => x.average_fill_percentage)) =
        some ((store.stations.map (fun st =>
          st.current_level / st.capacity_liters * 100)).sum /
          (store.stations.length : ℚ))) ∧
    ((get_statistics variedRatioStore).data.map
      (fun x => x.average_fill_percentage)) = some 60 ∧
    ((variedRatioStore.stations.map (fun st => st.current_level)).sum /
      (variedRatioStore.stations.map (fun st => st.capacity_liters)).sum * 100)
      = 40 ∧
    (60 : ℚ) ≠ 40 := by
  refine ⟨?_,
    by norm_num [get_statistics, variedRatioStore, sqlDiv, List.filterMap_cons],
    by norm_num [variedRatioStore], by norm_num⟩
  intro store hne hpos
  have hnz : ∀ st ∈ store.stations, st.capacity_liters ≠ 0 :=
    fun st hst => (hpos st hst).ne'
  have hr := ratios_eq_map store.stations hnz
  simp only [get_statistics, hr, Option.map_some', List.length_map]
  rw [if_neg (by
    intro hz
    exact hne (List.length_eq_zero.mp hz))]

/-- Witness for C8 amended at the varied-capacity store. -/
theorem oxygen_c8_witness :
    ((get_statistics variedRatioStore).data.map
      (fun x => x.average_fill_percentage)) =
      some ((variedRatioStore.stations.map (fun st =>
        st.current_level / st.capacity_liters * 100)).sum /
        (variedRatioStore.stations.length : ℚ)) :=
  oxygen_c8_amended.1 variedRatioStore (by simp [variedRatioStore])
    (by
      rintro st hst
      simp only [variedRatioStore, List.mem_cons, List.not_mem_nil, or_false] at hst
      rcases hst with rfl | rfl <;> norm_num)

/-- C9: low_level_alerts counts exactly the stations whose fill ratio is
defined (nonzero capacity) and strictly below the fixed 20 percent cutoff,
and it depends only on the stations' current_level and capacity_liters
columns, hence not on any configured threshold. -/
theorem oxygen_c9_alert_cutoff :
    (∀ store : Store,
      ((get_statistics store).data.map (fun x => x.low_level_alerts)) =
        some ((store.stations.filter (fun st =>
          decide (st.capacity_liters ≠ 0 ∧
            st.current_level / st.capacity_liters < 20 / 100))).length)) ∧
    (∀ s1 s2 : Store,
      s1.stations.map (fun st => (st.current_level, st.capacity_liters)) =
        s2.stations.map (fun st => (st.current_level, st.capacity_liters)) →
      ((get_statistics s1).data.map (fun x => x.low_level_alerts)) =
        ((get_statistics s2).data.map (fun x => x.low_level_alerts))) := by
  have h02 : (0.2 : ℚ) = 20 / 100 := by norm_num
  have hpred : ∀ s : OxygenStation,
      sqlRatioLt s.current_level s.capacity_liters (0.2 : ℚ) =
        decide (s.capacity_liters ≠ 0 ∧
          s.current_level / s.capacity_liters < 20 / 100) := by
    intro s
    unfold sqlRatioLt sqlDiv
    by_cases hc : s.capacity_liters = 0
    · simp [hc]
    · simp [hc, h02]
  constructor
  · intro store
    simp only [get_statistics, Option.map_some']
    rw [filter_ext_pred _ _ hpred]
  · intro s1 s2 hmap
    have key : ∀ s : Store,
        ((get_statistics s).data.map (fun x => x.low_level_alerts)) =
          some (List.countP (fun pr : ℚ × ℚ => sqlRatioLt pr.1 pr.2 (0.2 : ℚ))
            (s.stations.map (fun st => (st.current_level, st.capacity_liters)))) := by
      intro s
      simp only [get_statistics, Option.map_some']
      rw [List.countP_map, List.countP_eq_length_filter]
      exact congrArg some (congrArg List.length
        (filter_ext_pred _ _ (fun a => rfl) s.stations))
    rw [key s1, key s2, hmap]

/-- Witness for C9: two stores with identical level and capacity columns
but different names, ids and statuses produce the same alert count. -/
theorem oxygen_c9_witness :
    ((get_statistics sampleStore).data.map (fun x => x.low_level_alerts)) =
      ((get_statistics relabeledStore).data.map (fun x => x.low_level_alerts)) :=
  oxygen_c9_alert_cutoff.2 sampleStore relabeledStore (by decide)

/-- A recognised sort column together with direction ASC or DESC makes the
ORDER BY model succeed with a comparator sort. -/
lemma sqlOrderBy_valid {α : Type} {cmp? : Option (α → α → Bool)}
    (le : α → α → Bool) (hc : cmp? = some le) {dir : String}
    (hdir : dir = "ASC" ∨ dir = "DESC") (l : List α) :
    ∃ cmp', sqlOrderBy cmp? dir l = some (sortOrd cmp' l) := by
  subst hc
  rcases hdir with h | h <;> subst h
  · exact ⟨le, by simp [sqlOrderBy]⟩
  · exact ⟨fun a b => le b a, by simp [sqlOrderBy]⟩

/-- Normal form of find_all_stations on valid pagination input. -/
lemma find_all_stations_eq (store : Store) (filters : OxygenStationFilter)
    (pg : PaginationParams) (cmp' : OxygenStation → OxygenStation → Bool)
    (hsor : sqlOrderBy (stationCmp pg.sort_by) pg.sort_order
      (filteredStations store filters) =
        some (sortOrd cmp' (filteredStations store filters)))
    (hl : 1 ≤ pg.limit) (hp : 1 ≤ pg.page) :
    find_all_stations store filters pg =
      { success := true
        data := some
          { data := ((sortOrd cmp' (filteredStations store filters)).drop
              ((pg.page - 1) * pg.limit).toNat).take pg.limit.toNat
            total := (filteredStations store filters).length
            page := pg.page
            limit := pg.limit
            total_pages := ((filteredStations store filters).length +
              pg.limit.toNat - 1) / pg.limit.toNat } } := by
  unfold find_all_stations
  simp only [hsor]
  rw [if_neg (by
    push_neg
    exact ⟨by omega, mul_nonneg (by omega) (by omega)⟩)]
  rw [if_neg (by omega)]

/-- Normal form of get_readings_for_station on valid pagination input. -/
lemma get_readings_eq (store : Store) (station_id : ℕ)
    (pg : PaginationParams) (cmp' : OxygenReading → OxygenReading → Bool)
    (hsor : sqlOrderBy (readingCmp pg.sort_by) pg.sort_order
      (stationReadings store station_id) =
        some (sortOrd cmp' (stationReadings store station_id)))
    (hl : 1 ≤ pg.limit) (hp : 1 ≤ pg.page) :
    get_readings_for_station store station_id pg =
      { success := true
        data := some
          { data := ((sortOrd cmp' (stationReadings store station_id)).drop
              ((pg.page - 1) * pg.limit).toNat).take pg.limit.toNat
            total := (stationReadings store station_id).length
            page := pg.page
            limit := pg.limit
            total_pages := ((stationReadings store station_id).length +
              pg.limit.toNat - 1) / pg.limit.toNat } } := by
  unfold get_readings_for_station
  simp only [hsor]
  rw [if_neg (by
    push_neg
    exact ⟨by omega, mul_nonneg (by omega) (by omega)⟩)]
  rw [if_neg (by omega)]

/-- C7 counterexample: with limit 50 (a positive limit) but a sort column
that is not a column of the table, the call fails with no data, although
three rows match the empty filter; the claim promised a total for every
pagination input with positive limit. -/
theorem oxygen_c7_counterexample :
    ((find_all_stations threeStationStore {}
      { page := 1, limit := 50, sort_by := "nonexistent_column",
        sort_order := "ASC" }).success = false) ∧
    ((find_all_stations threeStationStore {}
      { page := 1, limit := 50, sort_by := "nonexistent_column",
        sort_order := "ASC" }).data = none) ∧
    ((filteredStations threeStationStore {}).length = 3) := by
  refine ⟨by decide, by decide, by decide⟩

/-- C7 amended: when the pagination input is well formed (positive limit,
page at least 1, a recognised sort column and an ASC or DESC direction),
find_all_stations succeeds, total is the number of rows matching the
filter independent of the page window, total_pages is the ceiling of
total / limit, and concatenating the data of pages 1 through total_pages
is a permutation of the full filtered set (no duplicates or omissions). -/
theorem oxygen_c7_amended (store : Store) (filters : OxygenStationFilter)
    (pg : PaginationParams) (le : OxygenStation → OxygenStation → Bool)
    (hcol : stationCmp pg.sort_by = some le)
    (hord : pg.sort_order = "ASC" ∨ pg.sort_order = "DESC")
    (hl : 1 ≤ pg.limit) (hp : 1 ≤ pg.page) :
    ((find_all_stations store filters pg).success = true) ∧
    ((find_all_stations store filters pg).data.map (fun r => r.total) =
      some ((filteredStations store filters).length)) ∧
    ((find_all_stations store filters pg).data.map (fun r => r.total_pages) =
      some ⌈((filteredStations store filters).length : ℚ) / (pg.limit : ℚ)⌉₊) ∧
    List.Perm
      ((List.range
          ⌈((filteredStations store filters).length : ℚ) / (pg.limit : ℚ)⌉₊).flatMap
        (fun i => stationPageData store filters pg i))
      (filteredStations store filters) := by
  obtain ⟨cmp', hsor⟩ :=
    sqlOrderBy_valid le hcol hord (filteredStations store filters)
  set matched := filteredStations store filters with hm
  set k := pg.limit.toNat with hkdef
  have hk : 0 < k := by omega
  have hlim : pg.limit = (k : ℤ) := by omega
  have hceil : (matched.length + k - 1) / k =
      ⌈(matched.length : ℚ) / (pg.limit : ℚ)⌉₊ := by
    rw [total_pages_eq_ceil _ _ hk]
    congr 2
    rw [hlim]
    push_cast
    ring
  have heq := find_all_stations_eq store filters pg cmp' hsor hl hp
  refine ⟨by rw [heq], by rw [heq]; rfl, ?_, ?_⟩
  · rw [heq]
    simp only [Option.map_some']
    exact congrArg some hceil
  · have hpage : ∀ i : ℕ, stationPageData store filters pg i =
        ((sortOrd cmp' matched).drop (i * k)).take k := by
      intro i
      unfold stationPageData
      have heqi := find_all_stations_eq store filters
        { pg with page := (i : ℤ) + 1 } cmp' hsor hl
        (by show (1 : ℤ) ≤ (i : ℤ) + 1; omega)
      rw [heqi]
      have harg : (((i : ℤ) + 1 - 1) * pg.limit).toNat = i * k := by
        rw [hlim]
        have hc2 : ((i : ℤ) + 1 - 1) * (k : ℤ) = ((i * k : ℕ) : ℤ) := by
          push_cast
          ring
        rw [hc2, Int.toNat_natCast]
      simp only [harg]
    have hbind : (List.range
        ⌈(matched.length : ℚ) / (pg.limit : ℚ)⌉₊).flatMap
          (fun i => stationPageData store filters pg i) =
        (List.range ((matched.length + k - 1) / k)).flatMap
          (fun i => ((sortOrd cmp' matched).drop (i * k)).take k) := by
      rw [← hceil]
      congr 1
      funext i
      exact hpage i
    rw [hbind]
    have hlen : (sortOrd cmp' matched).length = matched.length :=
      (sortOrd_perm cmp' matched).length_eq
    have hcover : (sortOrd cmp' matched).length ≤
        ((matched.length + k - 1) / k) * k := by
      rw [hlen]
      have h1 : matched.length ≤ k * (matched.length ⌈/⌉ k) :=
        (ceilDiv_le_iff_le_mul hk).mp le_rfl
      rw [Nat.ceilDiv_eq_add_pred_div] at h1
      calc matched.length ≤ k * ((matched.length + k - 1) / k) := h1
        _ = ((matched.length + k - 1) / k) * k := Nat.mul_comm _ _
    rw [chunks_concat k _ _ hcover]
    exact sortOrd_perm cmp' matched

/-- Witness for C7 amended: page 1 of the three-station store with limit 2,
sorted by station_id ascending. -/
theorem oxygen_c7_witness :
    (find_all_stations threeStationStore {}
      { page := 1, limit := 2, sort_by := "station_id",
        sort_order := "ASC" }).success = true :=
  (oxygen_c7_amended threeStationStore {}
    { page := 1, limit := 2, sort_by := "station_id", sort_order := "ASC" }
    (fun a b => decide (a.station_id ≤ b.station_id)) rfl (Or.inl rfl)
    (by norm_num) (by norm_num)).1

/-- C10 counterexample: for the absent station id 2, pagination with
limit 0 makes the total_pages computation divide by zero, so the service
reports failure rather than the claimed success with an empty page. -/
theorem oxygen_c10_counterexample :
    ((get_readings_for_station readingsStore 2
      { page := 1, limit := 0, sort_by := "timestamp",
        sort_order := "DESC" }).success = false) ∧
    ((readingsStore.stations.map (fun s => s.station_id)) = [1]) := by
  exact ⟨by decide, by decide⟩

/-- C10 amended: for a station id that no station of a foreign-key-sound
store carries, and well-formed pagination (positive limit, page at least 1,
recognised sort column, ASC or DESC), get_readings_for_station succeeds
with an empty page, total 0 and total_pages 0, and the readings route
answers HTTP 200, not 404. -/
theorem oxygen_c10_amended (store : Store) (sid : ℕ) (pg : PaginationParams)
    (le : OxygenReading → OxygenReading → Bool)
    (hfk : fkOk store)
    (habsent : ∀ st ∈ store.stations, st.station_id ≠ sid)
    (hcol : readingCmp pg.sort_by = some le)
    (hord : pg.sort_order = "ASC" ∨ pg.sort_order = "DESC")
    (hl : 1 ≤ pg.limit) (hp : 1 ≤ pg.page) :
    ((get_readings_for_station store sid pg).success = true) ∧
    ((get_readings_for_station store sid pg).data =
      some { data := [], total := 0, page := pg.page, limit := pg.limit,
             total_pages := 0 }) ∧
    (get_oxygen_readings_http store sid pg = 200) := by
  have hempty : stationReadings store sid = [] := by
    unfold stationReadings
    rw [List.filter_eq_nil_iff]
    intro r hr
    obtain ⟨st, hst, hid⟩ := hfk r hr
    intro hdec
    have hr2 : r.station_id = sid := of_decide_eq_true hdec
    exact habsent st hst (by rw [hid, hr2])
  obtain ⟨cmp', hsor⟩ := sqlOrderBy_valid le hcol hord (stationReadings store sid)
  have heq := get_readings_eq store sid pg cmp' hsor hl hp
  rw [hempty] at heq
  have hz : (pg.limit.toNat - 1) / pg.limit.toNat = 0 :=
    Nat.div_eq_of_lt (by omega)
  refine ⟨by rw [heq], ?_, ?_⟩
  · rw [heq]
    have hsnil : sortOrd cmp' ([] : List OxygenReading) = [] := rfl
    simp [hsnil, hz]
  · unfold get_oxygen_readings_http
    rw [heq]
    simp

/-- Witness for C10 amended: querying readings of the nonexistent station 2
with the route's default pagination answers 200. -/
theorem oxygen_c10_witness :
    get_oxygen_readings_http readingsStore 2
      { page := 1, limit := 50, sort_by := "timestamp",
        sort_order := "DESC" } = 200 :=
  (oxygen_c10_amended readingsStore 2
    { page := 1, limit := 50, sort_by := "timestamp", sort_order := "DESC" }
    (fun a b => decide (a.timestamp ≤ b.timestamp)) (by decide) (by decide)
    rfl (Or.inr rfl) (by norm_num) (by norm_num)).2.2
